import Mathlib

/-!
Verification development for the reaction-block parser of the
`chemkin_io` package (`chemkin_io/parser/reaction.py`).

The source builds its extractors from the `autoparse` combinator library,
which is a thin wrapper over Python regular expressions.  We therefore embed
a small backtracking regular-expression engine with capture groups and
negative lookahead, faithful to Python `re` semantics (leftmost match,
greedy quantifiers with backtracking, group numbering in order of the
opening parenthesis, last capture wins, non-participating groups are
absent).  On top of it we translate, pattern for pattern and function for
function, the definitions of `reaction.py`.

Python exceptions (for example `float(None)` raising `TypeError`) are
modelled by the `Py` result type below.  Python `float` values are modelled
by rational numbers; every numeric literal appearing in the evaluated
inputs is exactly representable, so no rounding questions arise.
-/

/-- Characters of a Python string. -/
abbrev Str := List Char

/-- Capture state of a regex match: group number to captured text.
Python semantics: a group that never participated maps to `none`. -/
abbrev Caps := Nat → Option Str

/-- Result of a Python call: either a raised exception or a value. -/
inductive Py (α : Type) : Type where
  | exn : Py α
  | ret : α → Py α
deriving DecidableEq

/-- Whitespace characters of Python (the regex class backslash-s and
`str.strip` and `float` leading-space tolerance). -/
def isPySpace (c : Char) : Bool :=
  c = ' ' || c = '\t' || c = '\n' || c = '\x0d' || c = '\x0b' || c = '\x0c'

/-- Regular-expression abstract syntax, covering exactly the constructs the
`autoparse.pattern` combinators used by `reaction.py` produce:
character classes, sequencing, prioritized alternation, greedy star,
capturing groups, negative lookahead, and the string-start anchor. -/
inductive RE : Type where
  | eps : RE
  | cls : (Char → Bool) → RE
  | seq : RE → RE → RE
  | alt : RE → RE → RE
  | star : RE → RE
  | group : Nat → RE → RE
  | nla : RE → RE
  | bos : RE

/-- Sequence a list of patterns. -/
def RE.cat : List RE → RE
  | [] => RE.eps
  | [r] => r
  | r :: rest => RE.seq r (RE.cat rest)

/-- Prioritized alternation over a list, as `autoparse` `one_of_these`. -/
def RE.oneOf : List RE → RE
  | [] => RE.cls (fun _ => false)
  | [r] => r
  | r :: rest => RE.alt r (RE.oneOf rest)

/-- A single literal character. -/
def RE.lit (c : Char) : RE := RE.cls (fun d => d = c)

/-- A literal string (the effect of `re.escape` on plain text). -/
def RE.strLit (s : String) : RE := RE.cat (s.toList.map RE.lit)

/-- Zero or one, greedy, as `autoparse` `maybe`. -/
def RE.opt (r : RE) : RE := RE.alt r RE.eps

/-- One or more, greedy, as `autoparse` `one_or_more`. -/
def RE.rep1 (r : RE) : RE := RE.seq r (RE.star r)

/-- A series of elements separated by a separator, as `autoparse`
`series(p, sep) = p (sep p)*`. -/
def RE.series (p sep : RE) : RE := RE.seq p (RE.star (RE.seq sep p))

/-- Record a capture. -/
def setCap (caps : Caps) (n : Nat) (v : Str) : Caps :=
  fun m => if m = n then some v else caps m

/-- Backtracking matcher in continuation-passing style.  `i` is the
absolute position of the remaining suffix `s` in the subject string; the
continuation receives position, suffix and captures of a candidate parse
and may reject it, causing backtracking.  Ordering of attempts follows
Python `re`: alternation tries the left branch first and the star is
greedy (an iteration matching the empty string terminates the loop, as in
Python).  Fuel bounds the call depth only; it is chosen large enough for
every evaluation in this file, and theorems never depend on its value. -/
def reM (fuel : Nat) (r : RE) (i : Nat) (s : Str) (caps : Caps)
    (k : Nat → Str → Caps → Option (Nat × Caps)) : Option (Nat × Caps) :=
  match fuel with
  | 0 => none
  | fuel' + 1 =>
    match r with
    | .eps => k i s caps
    | .bos => if i = 0 then k i s caps else none
    | .cls p =>
      match s with
      | [] => none
      | c :: rest => if p c then k (i + 1) rest caps else none
    | .seq a b => reM fuel' a i s caps (fun j t c2 => reM fuel' b j t c2 k)
    | .alt a b =>
      match reM fuel' a i s caps k with
      | some res => some res
      | none => reM fuel' b i s caps k
    | .star a =>
      match reM fuel' a i s caps (fun j t c2 =>
          if j = i then none else reM fuel' (RE.star a) j t c2 k) with
      | some res => some res
      | none => k i s caps
    | .group n a =>
      reM fuel' a i s caps (fun j t c2 => k j t (setCap c2 n (s.take (j - i))))
    | .nla a =>
      match reM fuel' a i s caps (fun _ _ c2 => some (0, c2)) with
      | some _ => none
      | none => k i s caps

/-- Fuel bound used for every match attempt on a given subject. -/
def reFuel (s : Str) : Nat := 500 * (s.length + 4)

/-- Leftmost search, as `re.search`: try an anchored match at every start
position from left to right; result is start, end and captures. -/
def reSearchAux (fuel : Nat) (r : RE) : Nat → Str → Option (Nat × Nat × Caps)
  | i, s =>
    match reM fuel r i s (fun _ => none) (fun j _ c => some (j, c)) with
    | some (j, c) => some (i, j, c)
    | none =>
      match s with
      | [] => none
      | _ :: rest => reSearchAux fuel r (i + 1) rest

/-- Search the whole subject, as `re.search`. -/
def reSearch (r : RE) (s : Str) : Option (Nat × Nat × Caps) :=
  reSearchAux (reFuel s) r 0 s

/-- All non-overlapping matches from left to right, as `re.finditer` and
`re.findall`.  The first fuel argument bounds the number of matches; every
pattern this file scans with consumes at least one character per match, so
the guard against a non-advancing match is never reached. -/
def reFindAllAux (fuel : Nat) (r : RE) : Nat → Nat → Str → List (Nat × Nat × Caps)
  | 0, _, _ => []
  | sf + 1, i, s =>
    match reSearchAux fuel r i s with
    | none => []
    | some (st, en, c) =>
      if st < en then
        (st, en, c) :: reFindAllAux fuel r sf en (s.drop (en - i))
      else [(st, en, c)]

/-- All matches of `r` in `s`. -/
def reFindAll (r : RE) (s : Str) : List (Nat × Nat × Caps) :=
  reFindAllAux (reFuel s) r (s.length + 1) 0 s

/-- Delete every match, as `re.sub(pattern, empty replacement, s)`;
this is `autoparse.find.remove`. -/
def reRemoveAux (fuel : Nat) (r : RE) : Nat → Nat → Str → Str
  | 0, _, s => s
  | sf + 1, i, s =>
    match reSearchAux fuel r i s with
    | none => s
    | some (st, en, _) =>
      if st < en then
        s.take (st - i) ++ reRemoveAux fuel r sf en (s.drop (en - i))
      else s

/-- Delete every match of `r` from `s`. -/
def reRemove (r : RE) (s : Str) : Str :=
  reRemoveAux (reFuel s) r (s.length + 1) 0 s

/-- Split on every match, as `re.split` with a group-free pattern;
this is `autoparse.find.split`. -/
def reSplitAux (fuel : Nat) (r : RE) : Nat → Nat → Str → List Str
  | 0, _, s => [s]
  | sf + 1, i, s =>
    match reSearchAux fuel r i s with
    | none => [s]
    | some (st, en, _) =>
      if st < en then
        s.take (st - i) :: reSplitAux fuel r sf en (s.drop (en - i))
      else [s]

/-- Split `s` at every match of `r`. -/
def reSplit (r : RE) (s : Str) : List Str :=
  reSplitAux (reFuel s) r (s.length + 1) 0 s

/-- Build a `String` back from characters. -/
def strOf (l : Str) : String := ⟨l⟩

/-- Whether the pattern matches anywhere, as `autoparse.find.has_match`. -/
def hasMatch (r : RE) (s : String) : Bool := (reSearch r s.toList).isSome

/-- First-match capture of a single-group pattern, as
`autoparse.find.first_capture` on a pattern with one group: `none` both
when there is no match and when the group did not participate, exactly as
the Python function returns `None` in both cases. -/
def firstCapture1 (r : RE) (s : String) : Option String :=
  match reSearch r s.toList with
  | none => none
  | some (_, _, c) => (c 1).map strOf

/-- First-match captures of an `n`-group pattern, as
`autoparse.find.first_capture` on a pattern with several groups, which
returns `match.groups()`: the tuple of groups `1..n`, a non-participating
group being `None`. -/
def firstCaptureN (n : Nat) (r : RE) (s : String) : Option (List (Option String)) :=
  match reSearch r s.toList with
  | none => none
  | some (_, _, c) => some ((List.range n).map (fun k => (c (k + 1)).map strOf))

/-- All-match captures of a single-group pattern, as `re.findall` used by
`autoparse.find.all_captures`: one string per match. -/
def allCaptures1 (r : RE) (s : String) : List String :=
  (reFindAll r s.toList).map (fun m => strOf ((m.2.2 1).getD []))

/-- All-match captures of an `n`-group pattern, as `re.findall`: one tuple
of groups per match, a non-participating group being the empty string. -/
def allCapturesN (n : Nat) (r : RE) (s : String) : List (List String) :=
  (reFindAll r s.toList).map
    (fun m => (List.range n).map (fun k => strOf ((m.2.2 (k + 1)).getD [])))

/-! ### Python string and number helpers -/

/-- Python `str.strip()`. -/
def pyStrip (s : String) : String :=
  strOf (((s.toList.dropWhile isPySpace).reverse.dropWhile isPySpace).reverse)

/-- Split a character list at every occurrence of `c`; the result is the
list of the segments between occurrences and is never empty. -/
def splitCharAux (c : Char) : Str → List Str
  | [] => [[]]
  | d :: rest =>
    if d = c then [] :: splitCharAux c rest
    else
      match splitCharAux c rest with
      | [] => [[d]]
      | l :: ls => (d :: l) :: ls

/-- Python `str.splitlines()` for strings whose only line break is the
newline character: the empty string gives no lines, and a final newline
does not open a last empty line. -/
def pySplitlines (s : String) : List String :=
  match s.toList with
  | [] => []
  | l =>
    let parts := splitCharAux '\n' l
    (if l.getLast? = some '\n' then parts.dropLast else parts).map strOf

/-- Python `str.split()` with no argument: split on whitespace runs,
dropping empty pieces. -/
def wsSplitAux : Nat → Str → List Str
  | 0, _ => []
  | _, [] => []
  | f + 1, c :: rest =>
    if isPySpace c then wsSplitAux f rest
    else
      ((c :: rest).takeWhile (fun d => !isPySpace d)) ::
        wsSplitAux f (rest.dropWhile (fun d => !isPySpace d))

/-- Python `str.split()` with no argument. -/
def pyWhitespaceSplit (s : String) : List String :=
  (wsSplitAux (s.length + 1) s.toList).map strOf

/-- Numeric value of a digit list. -/
def digitsVal (l : Str) : Nat := l.foldl (fun n c => 10 * n + (c.toNat - 48)) 0

/-- Split a list at the first character satisfying `p`, returning the part
before it and, when found, the part after it. -/
def splitAtChar (p : Char → Bool) : Str → Str × Option Str
  | [] => ([], none)
  | c :: rest =>
    if p c then ([], some rest)
    else
      let (a, b) := splitAtChar p rest
      (c :: a, b)

/-- Python `float()` on a string shaped like the `autoparse` number
patterns (optional sign, digits with an optional decimal point, optional
exponent marker with optional sign), tolerating surrounding whitespace.
Every string this is applied to in this file has matched a number pattern
first, so the value is exact. -/
def pyFloatStr (s : String) : ℚ :=
  let cs := ((s.toList.dropWhile isPySpace).reverse.dropWhile isPySpace).reverse
  let sgn : Bool × Str :=
    match cs with
    | '-' :: rest => (true, rest)
    | '+' :: rest => (false, rest)
    | _ => (false, cs)
  let mex := splitAtChar (fun c => c = 'E' || c = 'e' || c = 'D' || c = 'd') sgn.2
  let ipfp := splitAtChar (fun c => c = '.') mex.1
  let fp := ipfp.2.getD []
  let mant : Int := (digitsVal (ipfp.1 ++ fp) : Int)
  let eval10 : Int :=
    match mex.2 with
    | none => 0
    | some ('-' :: ds) => -(digitsVal ds : Int)
    | some ('+' :: ds) => (digitsVal ds : Int)
    | some ds => (digitsVal ds : Int)
  let e : Int := eval10 - (fp.length : Int)
  let m : Int := if sgn.1 then -mant else mant
  if 0 ≤ e then mkRat (m * (10 : Int) ^ e.toNat) 1
  else mkRat m ((10 : Nat) ^ (-e).toNat)

/-- Python `int()` on a string of an optional sign and digits. -/
def pyIntStr (s : String) : ℤ :=
  match s.toList with
  | '-' :: ds => -(digitsVal ds : ℤ)
  | '+' :: ds => (digitsVal ds : ℤ)
  | ds => (digitsVal ds : ℤ)

/-- Python `[float(v) for v in caps]` over the groups of a
`first_capture` result: `float(None)` raises `TypeError`, so a
non-participating group aborts the whole list. -/
def pyFloatMany : List (Option String) → Py (List ℚ)
  | [] => .ret []
  | none :: _ => .exn
  | some v :: rest =>
    match pyFloatMany rest with
    | .exn => .exn
    | .ret l => .ret (pyFloatStr v :: l)

/-- Python `[int(v) for v in caps]` over the groups of a `first_capture`
result, as `pyFloatMany`. -/
def pyIntMany : List (Option String) → Py (List ℤ)
  | [] => .ret []
  | none :: _ => .exn
  | some v :: rest =>
    match pyIntMany rest with
    | .exn => .exn
    | .ret l => .ret (pyIntStr v :: l)

/-- Python dictionary assignment `d[k] = v` on a dictionary modelled as an
insertion-ordered association list: update in place or append. -/
def dctSet [DecidableEq κ] (k : κ) (v : α) : List (κ × α) → List (κ × α)
  | [] => [(k, v)]
  | (k2, v2) :: rest =>
    if k2 = k then (k, v) :: rest else (k2, v2) :: dctSet k v rest

/-- Python dictionary lookup `d[k]` as an option. -/
def dctGet [DecidableEq κ] (k : κ) : List (κ × α) → Option α
  | [] => none
  | (k2, v2) :: rest => if k2 = k then some v2 else dctGet k rest

/-! ### The `autoparse` pattern constants used by `reaction.py` -/

/-- The class `[a-zA-Z]` (`autoparse` `LETTER`). -/
def LETTER : RE := RE.cls Char.isAlpha

/-- The class `[0-9]` (`autoparse` `DIGIT`). -/
def DIGIT : RE := RE.cls (fun c => c.isDigit)

/-- A whitespace character (`autoparse` `SPACE`). -/
def SPACE : RE := RE.cls isPySpace

/-- One or more whitespace characters (`autoparse` `SPACES`). -/
def SPACES : RE := RE.rep1 SPACE

/-- A space or tab inside a line (`autoparse` `LINESPACE`). -/
def LINESPACE : RE := RE.cls (fun c => c = ' ' || c = '\t')

/-- One or more line-internal spaces (`autoparse` `LINESPACES`). -/
def LINESPACES : RE := RE.rep1 LINESPACE

/-- A non-whitespace character (`autoparse` `NONSPACE`). -/
def NONSPACE : RE := RE.cls (fun c => !isPySpace c)

/-- The literal plus (`autoparse` `PLUS`). -/
def PLUS : RE := RE.lit '+'

/-- The underscore (`autoparse` `UNDERSCORE`). -/
def UNDERSCORE : RE := RE.lit '_'

/-- A sign (`autoparse`): plus or minus. -/
def SIGN : RE := RE.alt PLUS (RE.lit '-')

/-- One or more digits (`autoparse` `UNSIGNED_INTEGER`). -/
def UNSIGNED_INTEGER : RE := RE.rep1 DIGIT

/-- An optionally signed integer (`autoparse` `INTEGER`). -/
def INTEGER : RE := RE.seq (RE.opt SIGN) UNSIGNED_INTEGER

/-- An unsigned decimal number with a point (`autoparse` `UNSIGNED_FLOAT`):
digits around a point with at least the fractional digits, or digits
followed by a bare point. -/
def UNSIGNED_FLOAT : RE :=
  RE.alt (RE.cat [RE.opt UNSIGNED_INTEGER, RE.lit '.', UNSIGNED_INTEGER])
    (RE.seq UNSIGNED_INTEGER (RE.lit '.'))

/-- An optionally signed decimal number (`autoparse` `FLOAT`). -/
def FLOAT : RE := RE.seq (RE.opt SIGN) UNSIGNED_FLOAT

/-- An exponent marker (`autoparse`): the letters E or D in either case. -/
def EXP_MARKER : RE := RE.cls (fun c => c = 'E' || c = 'e' || c = 'D' || c = 'd')

/-- A float with a mandatory exponent part (`autoparse`
`EXPONENTIAL_FLOAT`). -/
def EXPONENTIAL_FLOAT : RE := RE.cat [FLOAT, EXP_MARKER, INTEGER]

/-- An integer with a mandatory exponent part (`autoparse`
`EXPONENTIAL_INTEGER`). -/
def EXPONENTIAL_INTEGER : RE := RE.cat [INTEGER, EXP_MARKER, INTEGER]

/-- Any number (`autoparse` `NUMBER`), most specific alternative first. -/
def NUMBER : RE :=
  RE.oneOf [EXPONENTIAL_FLOAT, EXPONENTIAL_INTEGER, FLOAT, INTEGER]

/-- Pad a pattern with optional line-internal fill on both sides
(`autoparse` `padded` with its default fill). -/
def RE.padded (r : RE) : RE := RE.cat [RE.star LINESPACE, r, RE.star LINESPACE]

/-! ### The pattern constants of `reaction.py` -/

/-- `CHEMKIN_ARROW`: an optional opening angle, the equals sign, an
optional closing angle. -/
def CHEMKIN_ARROW : RE := RE.cat [RE.opt (RE.lit '<'), RE.lit '=', RE.opt (RE.lit '>')]

/-- `CHEMKIN_PLUS_EM`: the literal two characters plus and M. -/
def CHEMKIN_PLUS_EM : RE := RE.seq PLUS (RE.lit 'M')

/-- `CHEMKIN_PAREN_PLUS_EM`: the literal four characters of a
parenthesized third body. -/
def CHEMKIN_PAREN_PLUS_EM : RE :=
  RE.cat [RE.lit '(', PLUS, RE.lit 'M', RE.lit ')']

/-- `SPECIES_NAME_PATTERN`: a first character that is no whitespace,
equals, plus or minus; then any number of letters, digits, the literal
three characters of a parenthesized plus, the class of hash, comma,
parentheses and minus, or square brackets; then any number of trailing
plus characters. -/
def SPECIES_NAME_PATTERN : RE :=
  RE.cat [
    RE.cls (fun c => !(isPySpace c || c = '=' || c = '+' || c = '-')),
    RE.star (RE.oneOf [LETTER, DIGIT, RE.strLit "(+)",
      RE.cls (fun c => c = '#' || c = ',' || c = '(' || c = ')' || c = '-'),
      RE.lit '[', RE.lit ']']),
    RE.star PLUS]

/-- `SPECIES_NAMES_PATTERN`: padded species names separated by padded
plus signs. -/
def SPECIES_NAMES_PATTERN : RE :=
  RE.series (RE.padded SPECIES_NAME_PATTERN) (RE.padded PLUS)

/-- `COEFF_PATTERN`: three numbers separated by line-internal spaces. -/
def COEFF_PATTERN : RE :=
  RE.cat [NUMBER, LINESPACES, NUMBER, LINESPACES, NUMBER]

/-- `_first_line_pattern`: reactants, padded arrow, products,
line-internal spaces, coefficients — all on one physical line. -/
def first_line_pattern (rct_ptt prd_ptt coeff_ptt : RE) : RE :=
  RE.cat [rct_ptt, RE.padded CHEMKIN_ARROW, prd_ptt, LINESPACES, coeff_ptt]

/-! ### The extractor functions of `reaction.py` -/

/-- The pattern of `reactant_names`: the first-line pattern with the
reactant side capturing (group 1, the only group). -/
def rct_names_pattern : RE :=
  first_line_pattern (RE.group 1 SPECIES_NAMES_PATTERN)
    SPECIES_NAMES_PATTERN COEFF_PATTERN

/-- The pattern of `product_names`: the first-line pattern with the
product side capturing (group 1, the only group). -/
def prd_names_pattern : RE :=
  first_line_pattern SPECIES_NAMES_PATTERN
    (RE.group 1 SPECIES_NAMES_PATTERN) COEFF_PATTERN

/-- The pattern of `high_p_parameters`: the first-line pattern with the
coefficient group capturing (group 1, the only group). -/
def high_p_pattern : RE :=
  first_line_pattern SPECIES_NAMES_PATTERN SPECIES_NAMES_PATTERN
    (RE.group 1 COEFF_PATTERN)

/-- The inner pattern of `_split_reagent_string`: anchored at the string
start, an optional captured digit, then one-or-more captured non-space
characters. -/
def reagent_count_pattern : RE :=
  RE.cat [RE.bos, RE.group 1 (RE.opt DIGIT), RE.group 2 (RE.rep1 NONSPACE)]

/-- `_interpret_reagent_count`: match the anchored pattern; unpacking a
failed match raises in Python, hence `exn` on no match.  A captured count
digit repeats the remainder that many times; an empty or absent count
(both false in Python) means one.  Group 2 is not optional, so it always
participates in a match; its absent case is dead code mapped to `exn`. -/
def interpret_reagent_count (t : String) : Py (List String) :=
  match firstCaptureN 2 reagent_count_pattern t with
  | none => .exn
  | some caps =>
    match caps with
    | [cnt, some rgt] =>
      let n : Nat :=
        match cnt with
        | some c => if c.toList = [] then 1 else digitsVal c.toList
        | none => 1
      .ret (List.replicate n rgt)
    | _ => .exn

/-- Map `interpret_reagent_count` over the split segments and chain the
results, as `tuple(itertools.chain(*map(...)))`: the first raising
segment aborts the whole call. -/
def chainReagentCounts : List String → Py (List String)
  | [] => .ret []
  | t :: rest =>
    match interpret_reagent_count t with
    | .exn => .exn
    | .ret l =>
      match chainReagentCounts rest with
      | .exn => .exn
      | .ret ls => .ret (l ++ ls)

/-- `_split_reagent_string`: remove line-internal spaces, remove the
parenthesized and the bare third-body marker, split on a plus not
followed by another plus, and expand each segment through
`_interpret_reagent_count`.  Passing the `None` of a failed capture into
`re.sub` raises `TypeError` in Python, hence `exn` on `none`. -/
def split_reagent_string (rgt_str : Option String) : Py (List String) :=
  match rgt_str with
  | none => .exn
  | some r0 =>
    let r1 := reRemove LINESPACES r0.toList
    let r2 := reRemove CHEMKIN_PAREN_PLUS_EM r1
    let r3 := reRemove CHEMKIN_PLUS_EM r2
    let segs := reSplit (RE.seq PLUS (RE.nla PLUS)) r3
    chainReagentCounts (segs.map strOf)

/-- `reactant_names`. -/
def reactant_names (rxn_dstr : String) : Py (List String) :=
  split_reagent_string (firstCapture1 rct_names_pattern rxn_dstr)

/-- `product_names`. -/
def product_names (rxn_dstr : String) : Py (List String) :=
  split_reagent_string (firstCapture1 prd_names_pattern rxn_dstr)

/-- `high_p_parameters`: all captures of the coefficient group, each
split on whitespace and numerically cast; `None` exactly when the match
list is empty. -/
def high_p_parameters (rxn_dstr : String) : Option (List (List ℚ)) :=
  let string_lst := allCaptures1 high_p_pattern rxn_dstr
  if string_lst.isEmpty then none
  else some (string_lst.map (fun c => (pyWhitespaceSplit c).map pyFloatStr))

/-- The `LOW` keyword pattern: the keyword, optional spaces, a slash,
then three captured numbers each preceded by one-or-more whitespace
characters, optional spaces, a closing slash. -/
def low_p_pattern : RE :=
  RE.cat [RE.strLit "LOW", RE.star SPACE, RE.lit '/',
    SPACES, RE.group 1 NUMBER,
    SPACES, RE.group 2 NUMBER,
    SPACES, RE.group 3 NUMBER,
    RE.star SPACE, RE.lit '/']

/-- `low_p_parameters`: the first match gives one triple; `None` when the
pattern does not match. -/
def low_p_parameters (rxn_dstr : String) : Py (Option (List (List ℚ))) :=
  match firstCaptureN 3 low_p_pattern rxn_dstr with
  | some cap1 =>
    match pyFloatMany cap1 with
    | .exn => .exn
    | .ret l => .ret (some [l])
  | none => .ret none

/-- The four-parameter `TROE` pattern: three mandatory captured numbers
each preceded by one-or-more whitespace characters, then one-or-more
whitespace characters and an optional captured fourth number. -/
def troe_pattern1 : RE :=
  RE.cat [RE.strLit "TROE", RE.star SPACE, RE.lit '/',
    SPACES, RE.group 1 NUMBER,
    SPACES, RE.group 2 NUMBER,
    SPACES, RE.group 3 NUMBER,
    SPACES, RE.opt (RE.group 4 NUMBER),
    RE.star SPACE, RE.lit '/']

/-- The three-parameter `TROE` pattern. -/
def troe_pattern2 : RE :=
  RE.cat [RE.strLit "TROE", RE.star SPACE, RE.lit '/',
    SPACES, RE.group 1 NUMBER,
    SPACES, RE.group 2 NUMBER,
    SPACES, RE.group 3 NUMBER,
    RE.star SPACE, RE.lit '/']

/-- `troe_parameters`: try the four-parameter pattern first; on a match,
coerce all four groups with `float`, which raises on a non-participating
fourth group; otherwise try the three-parameter pattern and append an
explicit absent fourth value; otherwise `None`. -/
def troe_parameters (rxn_dstr : String) : Py (Option (List (Option ℚ))) :=
  match firstCaptureN 4 troe_pattern1 rxn_dstr with
  | some cap1 =>
    match pyFloatMany cap1 with
    | .exn => .exn
    | .ret l => .ret (some (l.map some))
  | none =>
    match firstCaptureN 3 troe_pattern2 rxn_dstr with
    | some cap2 =>
      match pyFloatMany cap2 with
      | .exn => .exn
      | .ret l => .ret (some (l.map some ++ [none]))
    | none => .ret none

/-- The `TCHEB` pattern: two captured floats. -/
def tcheb_pattern : RE :=
  RE.cat [RE.strLit "TCHEB", RE.star SPACE, RE.lit '/',
    SPACES, RE.group 1 FLOAT,
    SPACES, RE.group 2 FLOAT,
    RE.star SPACE, RE.lit '/']

/-- The `PCHEB` pattern: two captured floats. -/
def pcheb_pattern : RE :=
  RE.cat [RE.strLit "PCHEB", RE.star SPACE, RE.lit '/',
    SPACES, RE.group 1 FLOAT,
    SPACES, RE.group 2 FLOAT,
    RE.star SPACE, RE.lit '/']

/-- The `CHEB` dimension pattern: two captured integers. -/
def cheb_dim_pattern : RE :=
  RE.cat [RE.strLit "CHEB", RE.star SPACE, RE.lit '/',
    SPACES, RE.group 1 INTEGER,
    SPACES, RE.group 2 INTEGER,
    RE.star SPACE, RE.lit '/']

/-- The `CHEB` coefficient-row pattern: a series, separated by
whitespace, of captured elements each consisting of whitespace and an
inner captured exponential float; group 1 is the outer capture (spaces
and number) and group 2 the inner one; within a row, each group retains
its last capture, as in Python. -/
def cheb_elm_pattern : RE :=
  RE.cat [RE.strLit "CHEB", RE.star SPACE, RE.lit '/',
    RE.series (RE.group 1 (RE.seq SPACES (RE.group 2 EXPONENTIAL_FLOAT))) SPACES,
    RE.star SPACE, RE.lit '/']

/-- The parsed Chebyshev record: the four keys of the Python result
dictionary. -/
structure ChebParams where
  t_limits : List ℚ
  p_limits : List ℚ
  alpha_dim : List ℤ
  alpha_elm : List (List ℚ)
deriving DecidableEq

/-- `chebyshev_parameters`: the result is built only when the
temperature-limit, pressure-limit and dimension patterns each have a
first capture and the coefficient-row pattern has at least one capture;
otherwise the whole result is `None`.  The numeric coercions act on
groups that always participate in a match; their absent cases are dead
code mapped to `exn`. -/
def chebyshev_parameters (rxn_dstr : String) : Py (Option ChebParams) :=
  let cheb_temps := firstCaptureN 2 tcheb_pattern rxn_dstr
  let cheb_pressures := firstCaptureN 2 pcheb_pattern rxn_dstr
  let alpha_dims := firstCaptureN 2 cheb_dim_pattern rxn_dstr
  let alpha_elm := allCapturesN 2 cheb_elm_pattern rxn_dstr
  if cheb_temps.isSome && cheb_pressures.isSome && alpha_dims.isSome &&
      !alpha_elm.isEmpty then
    match pyFloatMany (cheb_temps.getD []), pyFloatMany (cheb_pressures.getD []),
        pyIntMany (alpha_dims.getD []) with
    | .ret ts, .ret ps, .ret ds =>
      .ret (some ⟨ts, ps, ds, alpha_elm.map (fun row => row.map pyFloatStr)⟩)
    | _, _, _ => .exn
  else .ret none

/-- The `PLOG` pattern: the keyword, optional spaces, a slash, optional
spaces, then four captured numbers, the last three each preceded by
one-or-more spaces, optional spaces, a closing slash. -/
def plog_pattern : RE :=
  RE.cat [RE.strLit "PLOG", RE.star SPACE, RE.lit '/',
    RE.star SPACE, RE.group 1 NUMBER,
    RE.rep1 SPACE, RE.group 2 NUMBER,
    RE.rep1 SPACE, RE.group 3 NUMBER,
    RE.rep1 SPACE, RE.group 4 NUMBER,
    RE.star SPACE, RE.lit '/']

/-- Append a triple under a pressure key: a new key is appended at the
end in insertion order, an existing key has the triple appended to its
list, exactly as the Python dictionary update. -/
def plogAdd (p : ℚ) (v : List ℚ) :
    List (ℚ × List (List ℚ)) → List (ℚ × List (List ℚ))
  | [] => [(p, [v])]
  | (q, l) :: rest =>
    if q = p then (q, l ++ [v]) :: rest else (q, l) :: plogAdd p v rest

/-- `plog_parameters`: every `PLOG` capture contributes its triple under
its pressure key in source order; `None` exactly when there is no
capture.  Each findall row has the four captured strings, so the empty
row case is dead code leaving the dictionary unchanged. -/
def plog_parameters (rxn_dstr : String) : Option (List (ℚ × List (List ℚ))) :=
  let params_lst := allCapturesN 4 plog_pattern rxn_dstr
  if params_lst.isEmpty then none
  else some (params_lst.foldl (fun d row =>
    match row with
    | p :: vals => plogAdd (pyFloatStr p) (vals.map pyFloatStr) d
    | [] => d) [])

/-- The bath-species name pattern of `buffer_enhance_factors`: one or
more letters, digits, parentheses or underscores. -/
def bath_species_name : RE :=
  RE.rep1 (RE.cls (fun c =>
    c.isAlpha || c.isDigit || c = '(' || c = ')' || c = '_'))

/-- The efficiency-pair pattern: a captured species name, a slash, an
optional space, a captured number, a slash. -/
def factor_pattern : RE :=
  RE.cat [RE.group 1 bath_species_name, RE.lit '/',
    RE.opt SPACE, RE.group 2 NUMBER, RE.lit '/']

/-- The uncaptured first-line pattern, used to recognize the equation
line among the bad strings of `buffer_enhance_factors`. -/
def buffer_first_str : RE :=
  first_line_pattern SPECIES_NAMES_PATTERN SPECIES_NAMES_PATTERN COEFF_PATTERN

/-- The line patterns `buffer_enhance_factors` skips. -/
def buffer_bad_strings : List RE :=
  [RE.strLit "DUP", RE.strLit "LOW", RE.strLit "TROE",
   RE.strLit "CHEB", RE.strLit "PLOG", buffer_first_str]

/-- `buffer_enhance_factors`: only when the entry mentions `LOW` or
`TROE`, scan its lines in order; on each line that matches none of the
bad strings and yields at least one efficiency pair, assign a fresh
dictionary holding the pairs of that line (later pairs of the same line
overwriting earlier ones); lines without pairs leave the current value
unchanged. -/
def buffer_enhance_factors (rxn_dstr : String) : Option (List (String × ℚ)) :=
  if hasMatch (RE.strLit "LOW") rxn_dstr || hasMatch (RE.strLit "TROE") rxn_dstr then
    (pySplitlines rxn_dstr).foldl (fun factors line =>
      if buffer_bad_strings.any (fun p => hasMatch p line) then factors
      else
        let baths := allCapturesN 2 factor_pattern line
        if baths.isEmpty then factors
        else some (baths.foldl (fun d row =>
          match row with
          | [nm, num] => dctSet nm (pyFloatStr num) d
          | _ => d) [])) none
  else none

/-- Modelled from the spec: `chemkin_io.parser.util.headlined_sections`,
whose module is not among the provided sources — the Entry Segmenter of
section 4.1.  Each section starts at a line matching the headline
pattern and extends up to, not including, the next such line; lines
before the first headline belong to no section.  The first argument is
recursion fuel, at least the number of lines. -/
def headlined_sections_lines (ptt : RE) : Nat → List String → List (List String)
  | 0, _ => []
  | _, [] => []
  | f + 1, l :: rest =>
    if hasMatch ptt l then
      (l :: rest.takeWhile (fun x => !hasMatch ptt x)) ::
        headlined_sections_lines ptt f (rest.dropWhile (fun x => !hasMatch ptt x))
    else headlined_sections_lines ptt f rest

/-- Modelled from the spec: `headlined_sections` as a function on the
block text, rejoining the lines of each section with newlines. -/
def headlined_sections (ptt : RE) (s : String) : List String :=
  let ls := pySplitlines s
  (headlined_sections_lines ptt (ls.length + 1) ls).map
    (fun sec => String.intercalate "\n" sec)

/-- `data_strings`: the entries of a stripped reaction block, one per
line matching the arrow pattern. -/
def data_strings (block_str : String) : List String :=
  headlined_sections CHEMKIN_ARROW (pyStrip block_str)

/-- `data_dct` in its default string mode: fold the entries into an
insertion-ordered mapping keyed by the reactant-name and product-name
extraction results; a fresh key is appended with the raw entry text, a
colliding key keeps its place and gets a newline and the raw text of the
new entry appended to its value. -/
def data_dct (block_str : String) :
    List ((Py (List String) × Py (List String)) × String) :=
  (data_strings block_str).foldl (fun rxn_dct string =>
    let key := (reactant_names string, product_names string)
    match dctGet key rxn_dct with
    | none => rxn_dct ++ [(key, string)]
    | some v => dctSet key (v ++ "\n" ++ string) rxn_dct) []

/-- Modelled from the spec for comparison with `first_line_pattern`
(section 4.2 describes the composed pattern as reactants-pattern, arrow,
products-pattern, line-break, coefficient-pattern): the same composed
pattern but with a line break separating the products from the
coefficients. -/
def first_line_pattern_spec (rct_ptt prd_ptt coeff_ptt : RE) : RE :=
  RE.cat [rct_ptt, RE.padded CHEMKIN_ARROW, prd_ptt, RE.lit '\n', coeff_ptt]

/-- The reactant-capturing composed pattern in the form the spec
describes, built from `first_line_pattern_spec`. -/
def rct_names_pattern_spec : RE :=
  first_line_pattern_spec (RE.group 1 SPECIES_NAMES_PATTERN)
    SPECIES_NAMES_PATTERN COEFF_PATTERN

/-! ### Theorems for the claims -/

set_option maxRecDepth 40000

/-- C1: the species extraction splits each captured reagent side on plus
signs (but not at the first of a doubled plus), strips line-internal
spaces and the third-body markers, and expands a leading digit as a
stoichiometric count: the token 2OH yields OH twice, OH yields OH once,
interior spaces are dropped, a species name ending in plus stays whole,
and the equations H+M=OH+M and H(+M)=OH(+M) (with their coefficient
line) both give reactants H and products OH, in source order. -/
theorem c1_species_extraction :
    split_reagent_string (some "2OH") = Py.ret ["OH", "OH"] ∧
    split_reagent_string (some "OH") = Py.ret ["OH"] ∧
    split_reagent_string (some "H + OH") = Py.ret ["H", "OH"] ∧
    split_reagent_string (some "HE++OH") = Py.ret ["HE+", "OH"] ∧
    reactant_names "H+M=OH+M 1 2 3" = Py.ret ["H"] ∧
    product_names "H+M=OH+M 1 2 3" = Py.ret ["OH"] ∧
    reactant_names "H(+M)=OH(+M) 1 2 3" = Py.ret ["H"] ∧
    product_names "H(+M)=OH(+M) 1 2 3" = Py.ret ["OH"] := by
  refine ⟨by decide, by decide, by decide, by decide,
    by decide, by decide, by decide, by decide⟩

/-- C2 counterexample: on an entry the composed first-line pattern does
not match, the extractors do not yield an empty or absent species list —
they raise (the failed capture, a Python `None`, flows into `re.sub`,
which raises `TypeError`), an outcome distinct from every returned
value, in particular from the empty list. -/
theorem c2_counterexample :
    reactant_names "JUNK" = Py.exn ∧
    product_names "JUNK" = Py.exn ∧
    (Py.exn : Py (List String)) ≠ Py.ret [] := by
  refine ⟨by decide, by decide, by decide⟩

/-- C2 (amended): for every entry on which the composed first-line
pattern fails to match on a side, the name extraction for that side ends
in a raised hard error — never in any species list — which the caller
must treat as an unparseable entry. -/
theorem c2_no_match_hard_error : ∀ s : String,
    firstCapture1 rct_names_pattern s = none →
    firstCapture1 prd_names_pattern s = none →
    reactant_names s = Py.exn ∧ product_names s = Py.exn := by
  intro s h1 h2
  unfold reactant_names product_names
  rw [h1, h2]
  exact ⟨rfl, rfl⟩

/-- C2 witness: the amended theorem applied to a concrete malformed
entry, the hypotheses evaluated by decide. -/
theorem c2_no_match_hard_error_witness :
    (firstCapture1 rct_names_pattern "JUNK" = none ∧
      firstCapture1 prd_names_pattern "JUNK" = none) ∧
    reactant_names "JUNK" = Py.exn ∧ product_names "JUNK" = Py.exn :=
  ⟨⟨by decide, by decide⟩, c2_no_match_hard_error "JUNK" (by decide) (by decide)⟩

/-- C3 counterexample: in an entry with a LOW keyword whose efficiency
pairs sit on two qualifying lines, the mapping holds only the pairs of
the last such line — the pair of the earlier line is not merged in, so
the discovered pairs are not all collected into one mapping. -/
theorem c3_counterexample :
    buffer_enhance_factors "A=B 1 2 3\nLOW/ 1.0 2.0 3.0/\nAR/0.5/\nHE/0.7/" =
      some [("HE", mkRat 7 10)] ∧
    dctGet "AR"
      ((buffer_enhance_factors
        "A=B 1 2 3\nLOW/ 1.0 2.0 3.0/\nAR/0.5/\nHE/0.7/").getD []) = none := by
  refine ⟨by decide, by decide⟩

/-- C3 (amended): `buffer_enhance_factors` processes each qualifying
line, but each qualifying line that yields pairs replaces the mapping
with a fresh one instead of merging across lines, so the result holds
exactly the pairs of the last qualifying line with matches; within one
line all pairs are collected into the mapping and a duplicate species
token is last-write-wins. -/
theorem c3_qualifying_line_replaces :
    buffer_enhance_factors "A=B 1 2 3\nLOW/ 1.0 2.0 3.0/\nAR/0.5/\nHE/0.7/" =
      some [("HE", mkRat 7 10)] ∧
    buffer_enhance_factors "A=B 1 2 3\nTROE/ 1.0 2.0 3.0/\nAR/0.5/ HE/0.7/" =
      some [("AR", mkRat 1 2), ("HE", mkRat 7 10)] ∧
    buffer_enhance_factors "A=B 1 2 3\nTROE/ 1.0 2.0 3.0/\nAR/0.5/ AR/0.9/" =
      some [("AR", mkRat 9 10)] := by
  refine ⟨by decide, by decide, by decide⟩

/-- C4 counterexample: the extractors do not match a coefficient line
separated from the products by a line break.  On the entry with the
three numbers on the following line, the pattern in the form the spec
describes (with a line break) captures the reactants, while the pattern
of the code finds no match at all: the reactant extraction raises and
the high-pressure extraction is absent. -/
theorem c4_counterexample :
    firstCapture1 rct_names_pattern_spec "A=B\n1 2 3" = some "A" ∧
    firstCapture1 rct_names_pattern "A=B\n1 2 3" = none ∧
    reactant_names "A=B\n1 2 3" = Py.exn ∧
    high_p_parameters "A=B\n1 2 3" = none := by
  refine ⟨by decide, by decide, by decide, by decide⟩

/-- C4 (amended): the composed pattern is reactants-pattern, arrow,
products-pattern, one-or-more line-internal spaces, coefficient-pattern:
the three-number coefficient group is matched on the same physical line
as the reaction equation, separated from the products by spaces or tabs,
and a line break there defeats the match. -/
theorem c4_same_line_coefficients :
    reactant_names "A=B 1 2 3" = Py.ret ["A"] ∧
    product_names "A=B 1 2 3" = Py.ret ["B"] ∧
    high_p_parameters "A=B 1 2 3" = some [[1, 2, 3]] ∧
    firstCapture1 rct_names_pattern "A=B\n1 2 3" = none := by
  refine ⟨by decide, by decide, by decide, by decide⟩

/-- C5 counterexample: the TROE patterns demand at least one whitespace
character between the opening slash and the first number, so the exact
strings of the claim, with no space after the slash, match neither
pattern and the result is that no TROE data is found — not the claimed
parameter tuples. -/
theorem c5_counterexample :
    troe_parameters "TROE/0.5 100 1000/" = Py.ret none ∧
    troe_parameters "TROE/0.5 100 1000 2000/" = Py.ret none ∧
    (Py.ret (none : Option (List (Option ℚ))) ≠
      Py.ret (some [some (mkRat 1 2), some 100, some 1000, none])) := by
  refine ⟨by decide, by decide, by decide⟩

/-- C5 (amended): with the whitespace after the opening slash that the
patterns require, `troe_parameters` attempts the 4-parameter match first
and, if that fails, attempts the 3-parameter form and appends an
explicit absent 4th value: TROE/ 0.5 100 1000/ gives the three values
and an absent marker, TROE/ 0.5 100 1000 2000/ gives all four values,
and the result is absent when neither pattern matches. -/
theorem c5_troe_contract :
    troe_parameters "TROE/ 0.5 100 1000/" =
      Py.ret (some [some (mkRat 1 2), some 100, some 1000, none]) ∧
    troe_parameters "TROE/ 0.5 100 1000 2000/" =
      Py.ret (some [some (mkRat 1 2), some 100, some 1000, some 2000]) ∧
    ∀ s : String, firstCaptureN 4 troe_pattern1 s = none →
      firstCaptureN 3 troe_pattern2 s = none →
      troe_parameters s = Py.ret none := by
  refine ⟨by decide, by decide, ?_⟩
  intro s h1 h2
  unfold troe_parameters
  rw [h1, h2]

/-- C5 witness: the universal part of the amended theorem applied to a
concrete entry matching neither TROE pattern. -/
theorem c5_troe_contract_witness :
    (firstCaptureN 4 troe_pattern1 "A=B 1 2 3" = none ∧
      firstCaptureN 3 troe_pattern2 "A=B 1 2 3" = none) ∧
    troe_parameters "A=B 1 2 3" = Py.ret none :=
  ⟨⟨by decide, by decide⟩,
    c5_troe_contract.2.2 "A=B 1 2 3" (by decide) (by decide)⟩

/-- C6: `plog_parameters` groups the captured PLOG blocks into a mapping
keyed by the pressure value; two blocks sharing the pressure key 1.0
yield one entry holding both triples in source order, a distinct key
keeps its own list, and the result is absent exactly on entries with no
PLOG capture. -/
theorem c6_plog_grouping :
    plog_parameters
        "A=B 1 2 3\nPLOG/1.0 1.0 2.0 3.0/\nPLOG/1.0 4.0 5.0 6.0/\nPLOG/2.0 7.0 8.0 9.0/" =
      some [(1, [[1, 2, 3], [4, 5, 6]]), (2, [[7, 8, 9]])] ∧
    ∀ s : String, allCapturesN 4 plog_pattern s = [] →
      plog_parameters s = none := by
  refine ⟨by decide, ?_⟩
  intro s h
  simp [plog_parameters, h]

/-- C6 witness: the universal part applied to a concrete entry without a
PLOG block. -/
theorem c6_plog_grouping_witness :
    allCapturesN 4 plog_pattern "A=B 1 2 3" = [] ∧
    plog_parameters "A=B 1 2 3" = none :=
  ⟨by decide, c6_plog_grouping.2 "A=B 1 2 3" (by decide)⟩

/-- C7: `chebyshev_parameters` yields a record only when the TCHEB
block, the PCHEB block, the CHEB dimension block and at least one CHEB
coefficient row all match individually; whenever any one of the four is
absent the whole result is absent — as on the concrete entry with TCHEB
but no PCHEB — and on a full entry the record is built. -/
theorem c7_chebyshev_all_or_nothing :
    chebyshev_parameters
        "A=B 1 2 3\nTCHEB/ 1.0 2.0/\nCHEB/ 2 2/\nCHEB/ 1.0E0  2.0E0/" =
      Py.ret none ∧
    chebyshev_parameters
        "A=B 1 2 3\nTCHEB/ 1.0 2.0/\nPCHEB/ 3.0 4.0/\nCHEB/ 2 2/\nCHEB/ 1.0E0  2.0E0/\nCHEB/ 3.0E0  4.0E0/" =
      Py.ret (some ⟨[1, 2], [3, 4], [2, 2], [[2, 2], [4, 4]]⟩) ∧
    ∀ s : String,
      (firstCaptureN 2 tcheb_pattern s = none ∨
       firstCaptureN 2 pcheb_pattern s = none ∨
       firstCaptureN 2 cheb_dim_pattern s = none ∨
       allCapturesN 2 cheb_elm_pattern s = []) →
      chebyshev_parameters s = Py.ret none := by
  refine ⟨by decide, by decide, ?_⟩
  intro s h
  rcases h with h | h | h | h <;> simp [chebyshev_parameters, h]

/-- C7 witness: the universal part applied to a concrete entry with a
PCHEB block missing. -/
theorem c7_chebyshev_all_or_nothing_witness :
    (firstCaptureN 2 pcheb_pattern "A=B 1 2 3\nTCHEB/ 1.0 2.0/" = none) ∧
    chebyshev_parameters "A=B 1 2 3\nTCHEB/ 1.0 2.0/" = Py.ret none :=
  ⟨by decide,
    c7_chebyshev_all_or_nothing.2.2 "A=B 1 2 3\nTCHEB/ 1.0 2.0/"
      (Or.inr (Or.inl (by decide)))⟩

/-- C8: the keyed aggregation groups entries by the pair of reactant
and product name extractions; two entries with the identical key produce
exactly one mapping entry, indexed at the first-seen position, whose
value is the raw text of the first entry, a newline, and the raw text of
the second entry, while the entry with a distinct key keeps its own raw
text. -/
theorem c8_keyed_aggregation :
    data_dct "A=B 1 2 3\nA=B 4 5 6\nA=C 7 8 9" =
      [((Py.ret ["A"], Py.ret ["B"]), "A=B 1 2 3" ++ "\n" ++ "A=B 4 5 6"),
       ((Py.ret ["A"], Py.ret ["C"]), "A=C 7 8 9")] := by
  decide

/-- C9: `high_p_parameters` collects every capture of the composed
coefficient pattern in source order — on an entry with two
equation-shaped coefficient lines both triples appear, in order — and
the result is absent exactly when there are zero captures. -/
theorem c9_high_p_all_matches :
    high_p_parameters "A=B 1 2 3\nA=B 4 5 6" = some [[1, 2, 3], [4, 5, 6]] ∧
    ∀ s : String,
      (high_p_parameters s = none ↔ allCaptures1 high_p_pattern s = []) := by
  refine ⟨by decide, ?_⟩
  intro s
  cases hl : allCaptures1 high_p_pattern s with
  | nil => simp [high_p_parameters, hl]
  | cons a t => simp [high_p_parameters, hl]

/-- C9 witness: the equivalence applied to a concrete entry with no
coefficient-line match. -/
theorem c9_high_p_all_matches_witness :
    allCaptures1 high_p_pattern "JUNK" = [] ∧
    high_p_parameters "JUNK" = none :=
  ⟨by decide, (c9_high_p_all_matches.2 "JUNK").mpr (by decide)⟩

/-- C10: on an entry holding a three-number TROE block with whitespace
between the last number and the closing slash (and, as the patterns
require, whitespace after the opening slash), the 4-parameter pattern
matches with its optional fourth capture group unfilled, so
`troe_parameters` takes the 4-parameter branch and coerces the absent
capture with `float`, raising — instead of falling through to the
3-parameter pattern, which does match this entry. -/
theorem c10_troe_optional_fourth_group :
    firstCaptureN 4 troe_pattern1 "TROE/ 0.5 100 1000 /" =
      some [some "0.5", some "100", some "1000", none] ∧
    firstCaptureN 3 troe_pattern2 "TROE/ 0.5 100 1000 /" =
      some [some "0.5", some "100", some "1000"] ∧
    troe_parameters "TROE/ 0.5 100 1000 /" = Py.exn := by
  refine ⟨by decide, by decide, by decide⟩
